import Mathlib

/-!
Verification development for the relay control loop of `src/relay.py`
(`LoraBonnet`, `setup`, `run`).

The embedding models one iteration of the `while True` loop in `run`
(lines 134-188) as a pure function `tick` over an explicit bonnet state.
Observable effects of an iteration are recorded in a `TickOutput`:

* `calls`     — the sequence of SSD1306 display operations performed this
                iteration (`display.fill(0)` = `clear`, `display.text`
                = `drawText`, `display.show` = `flush`);
* `frames`    — the display buffer contents at each `display.show()` call;
* `logs`      — the strings handed to `logging.info`;
* `sent`      — the payloads for which `rfm9x.send` was called and returned;
* `sleeps_ms` — the `time.sleep` durations performed, in milliseconds;
* `error`     — `some e` when a Python exception propagates out of the
                iteration (and hence out of `run`, terminating the loop):
                a raising `rfm9x.receive()`, a `UnicodeDecodeError` from
                `str(packet, "utf-8")`, or a raising `rfm9x.send`.

Inputs of an iteration that come from hardware — the result of
`rfm9x.receive()` (including its received signal strength, which the
hardware exposes but the script never reads), the three raw GPIO button
values (active-low: pressed reads `False`), and whether `rfm9x.send`
raises — are gathered in `TickInputs`.
-/

namespace LoraRelay

/-- One text element placed into the SSD1306 display buffer by
`display.text(s, x, y, 1)`. -/
structure TextEntry where
  s : String
  x : Nat
  y : Nat
deriving DecidableEq

/-- One call that `run` makes on the display: `display.fill(0)` (`clear`),
`display.text(...)` (`drawText`), or `display.show()` (`flush`). -/
inductive DispCall where
  | clear
  | drawText (e : TextEntry)
  | flush
deriving DecidableEq

/-- What `bonnet.rfm9x.receive()` produced this iteration: the call raised,
returned `None`, or returned a packet (raw bytes plus the signal-quality
metric the radio measures alongside it; the script never reads the latter). -/
inductive RxResult where
  | failure
  | nothing
  | packet (data : List Nat) (rssi : Int)
deriving DecidableEq

/-- A Python exception propagating out of the loop body of `run`. -/
inductive RunError where
  | receiveError
  | decodeError
  | sendError
deriving DecidableEq

/-- The mutable fields of the `LoraBonnet` object that `run` reads or
writes, plus the SSD1306 display buffer (`screen`) that `fill`/`text`
mutate and `show` flushes. `identifier` is set in `setup` from
`socket.gethostname()`; `prev_packet` starts as `None`. -/
structure BonnetState where
  identifier : String
  prev_packet : Option (List Nat)
  screen : List TextEntry
deriving DecidableEq

/-- The hardware-determined inputs of one loop iteration. Buttons are wired
active-low with pull-ups: the raw `button_x.value` reads `false` exactly
when the button is physically pressed. -/
structure TickInputs where
  rx : RxResult
  button_a_value : Bool
  button_b_value : Bool
  button_c_value : Bool
  send_fails : Bool
deriving DecidableEq

/-- The observable outcome of one loop iteration (see the module comment). -/
structure TickOutput where
  state : BonnetState
  calls : List DispCall
  frames : List (List TextEntry)
  logs : List String
  sent : List (List Nat)
  sleeps_ms : List Nat
  error : Option RunError
deriving DecidableEq

/-- Whether a byte is a UTF-8 continuation byte (`0x80..0xBF`). -/
def isCont (b : Nat) : Bool :=
  decide (0x80 ≤ b) && decide (b ≤ 0xBF)

/-- Decode one scalar from the front of a strict UTF-8 byte stream,
mirroring CPython's strict `utf-8` codec (as used by `str(b, "utf-8")`):
rejects continuation-byte errors, overlong forms, surrogates and values
above `U+10FFFF`. Returns the decoded character and the remaining bytes. -/
def utf8Step : List Nat → Option (Char × List Nat)
  | [] => none
  | b0 :: rest =>
    if b0 ≤ 0x7F then
      some (Char.ofNat b0, rest)
    else if 0xC2 ≤ b0 ∧ b0 ≤ 0xDF then
      match rest with
      | b1 :: r =>
        if isCont b1 then
          some (Char.ofNat ((b0 - 0xC0) * 0x40 + (b1 - 0x80)), r)
        else none
      | [] => none
    else if 0xE0 ≤ b0 ∧ b0 ≤ 0xEF then
      match rest with
      | b1 :: b2 :: r =>
        let lo1 : Nat := if b0 = 0xE0 then 0xA0 else 0x80
        let hi1 : Nat := if b0 = 0xED then 0x9F else 0xBF
        if (lo1 ≤ b1 ∧ b1 ≤ hi1) ∧ isCont b2 then
          some (Char.ofNat ((b0 - 0xE0) * 0x1000 + (b1 - 0x80) * 0x40 + (b2 - 0x80)), r)
        else none
      | _ => none
    else if 0xF0 ≤ b0 ∧ b0 ≤ 0xF4 then
      match rest with
      | b1 :: b2 :: b3 :: r =>
        let lo1 : Nat := if b0 = 0xF0 then 0x90 else 0x80
        let hi1 : Nat := if b0 = 0xF4 then 0x8F else 0xBF
        if (lo1 ≤ b1 ∧ b1 ≤ hi1) ∧ isCont b2 ∧ isCont b3 then
          some (Char.ofNat ((b0 - 0xF0) * 0x40000 + (b1 - 0x80) * 0x1000
                + (b2 - 0x80) * 0x40 + (b3 - 0x80)), r)
        else none
      | _ => none
    else none

/-- Run `utf8Step` to exhaustion, fuelled by the length of the input (each
step consumes at least one byte, so the fuel suffices). -/
def utf8DecodeAux : Nat → List Nat → Option (List Char)
  | _, [] => some []
  | 0, _ :: _ => none
  | fuel + 1, l =>
    match utf8Step l with
    | some (c, rest) =>
      match utf8DecodeAux fuel rest with
      | some cs => some (c :: cs)
      | none => none
    | none => none

/-- `str(b, "utf-8")` on a byte sequence: `some` of the decoded string, or
`none` when CPython would raise `UnicodeDecodeError`. -/
def utf8Decode (l : List Nat) : Option String :=
  (utf8DecodeAux l.length l).map String.mk

/-- Standard UTF-8 encoding of one scalar value. -/
def utf8EncodeChar (c : Char) : List Nat :=
  let n := c.toNat
  if n < 0x80 then [n]
  else if n < 0x800 then [0xC0 + n / 0x40, 0x80 + n % 0x40]
  else if n < 0x10000 then
    [0xE0 + n / 0x1000, 0x80 + (n / 0x40) % 0x40, 0x80 + n % 0x40]
  else
    [0xF0 + n / 0x40000, 0x80 + (n / 0x1000) % 0x40,
     0x80 + (n / 0x40) % 0x40, 0x80 + n % 0x40]

/-- `bytes(s, "utf-8")`: UTF-8 encoding of a string. -/
def utf8Encode (s : String) : List Nat :=
  s.data.foldr (fun c acc => utf8EncodeChar c ++ acc) []

/-- `bytes("Button A!\r\n", "utf-8")` (line 161). -/
def button_a_data : List Nat := utf8Encode "Button A!\r\n"

/-- `bytes("Button B!\r\n", "utf-8")` (line 171). -/
def button_b_data : List Nat := utf8Encode "Button B!\r\n"

/-- `bytes("Button C!\r\n", "utf-8")` (line 181). -/
def button_c_data : List Nat := utf8Encode "Button C!\r\n"

/-- Lines 187-188: `bonnet.display.show()` then `time.sleep(0.1)` — the
common end of every iteration that is reached without an exception. -/
def finish (b : BonnetState) (calls : List DispCall)
    (frames : List (List TextEntry)) (logs : List String)
    (sent : List (List Nat)) (sleeps : List Nat) : TickOutput :=
  { state := b
    calls := calls ++ [DispCall.flush]
    frames := frames ++ [b.screen]
    logs := logs
    sent := sent
    sleeps_ms := sleeps ++ [100]
    error := none }

/-- One arm of the button chain (e.g. lines 157-165 for button A):
`display.fill(0)`, build the fixed payload, `rfm9x.send(payload)` (which
may raise, aborting the iteration), `display.text('Sent Button X!', 25,
15, 1)`, `logging.info(...)`, then fall through to the final show/sleep. -/
def sendButton (b : BonnetState) (sf : Bool) (calls : List DispCall)
    (frames : List (List TextEntry)) (logs : List String) (sleeps : List Nat)
    (data : List Nat) (line : String) (logline : String) : TickOutput :=
  let b := { b with screen := ([] : List TextEntry) }
  let calls := calls ++ [DispCall.clear]
  match sf with
  | true =>
    { state := b, calls := calls, frames := frames, logs := logs,
      sent := [], sleeps_ms := sleeps, error := some RunError.sendError }
  | false =>
    let e : TextEntry := ⟨line, 25, 15⟩
    let b := { b with screen := [e] }
    let calls := calls ++ [DispCall.drawText e]
    finish b calls frames (logs ++ [logline]) [data] sleeps

/-- Lines 157-185: the `if not bonnet.button_a.value / elif ... / elif ...`
chain, then the final show/sleep. Active-low: a raw value of `false` means
the button is pressed, so `not value` is truthy. The payload logged on a
send is the fixed literal just sent, so `str(button_x_data, "utf-8")` is
that literal (see `utf8Decode_button_a_data` below). -/
def finishButtons (b : BonnetState) (inp : TickInputs) (calls : List DispCall)
    (frames : List (List TextEntry)) (logs : List String)
    (sleeps : List Nat) : TickOutput :=
  match inp.button_a_value, inp.button_b_value, inp.button_c_value with
  | false, _, _ =>
    sendButton b inp.send_fails calls frames logs sleeps button_a_data
      "Sent Button A!" ("Sent: " ++ "Button A!\r\n")
  | true, false, _ =>
    sendButton b inp.send_fails calls frames logs sleeps button_b_data
      "Sent Button B!" ("Sent: " ++ "Button B!\r\n")
  | true, true, false =>
    sendButton b inp.send_fails calls frames logs sleeps button_c_data
      "Sent Button C!" ("Sent: " ++ "Button C!\r\n")
  | true, true, true =>
    finish b calls frames logs [] sleeps

/-- Lines 144-155, the `else` (packet present) branch after the raw bytes
were stored: `packet_text = str(bonnet.prev_packet, "utf-8")` (which may
raise `UnicodeDecodeError`, aborting the iteration), draw `'RX: '` at
`(0, 0)` and the decoded text at `(25, 0)`, log, `time.sleep(1)`. -/
def tickPacket (b : BonnetState) (inp : TickInputs)
    (calls : List DispCall) : Option String → TickOutput
  | none =>
    { state := b, calls := calls, frames := [], logs := [],
      sent := [], sleeps_ms := [], error := some RunError.decodeError }
  | some packet_text =>
    let e1 : TextEntry := ⟨"RX: ", 0, 0⟩
    let e2 : TextEntry := ⟨packet_text, 25, 0⟩
    let b := { b with screen := [e1, e2] }
    let calls := calls ++ [DispCall.drawText e1, DispCall.drawText e2]
    finishButtons b inp calls [] ["Received: " ++ packet_text] [1000]

/-- Lines 138-188, dispatched on what `bonnet.rfm9x.receive()` produced.
`failure`: the receive call raised and the exception propagates.
`nothing` (`packet is None`, lines 141-143): `display.show()` then draw the
waiting line at `(15, 20)`. `packet` (lines 144-155): `display.fill(0)`,
`bonnet.prev_packet = packet`, then decode and render. -/
def tickRx (b : BonnetState) (inp : TickInputs)
    (calls : List DispCall) : RxResult → TickOutput
  | RxResult.failure =>
    { state := b, calls := calls, frames := [], logs := [],
      sent := [], sleeps_ms := [], error := some RunError.receiveError }
  | RxResult.nothing =>
    let frames := [b.screen]
    let wline : TextEntry := ⟨"- Waiting for PKT -", 15, 20⟩
    let b := { b with screen := b.screen ++ [wline] }
    let calls := calls ++ [DispCall.flush, DispCall.drawText wline]
    finishButtons b inp calls frames [] []
  | RxResult.packet data _rssi =>
    let b := { b with prev_packet := some data, screen := ([] : List TextEntry) }
    let calls := calls ++ [DispCall.clear]
    tickPacket b inp calls (utf8Decode data)

/-- One full iteration of the `while True` loop of `run` (lines 134-188).
It always begins with `display.fill(0)` and
`display.text(f'{bonnet.identifier}', 35, 0, 1)` (lines 135-136) and then
dispatches on the receive result. -/
def tick (b : BonnetState) (inp : TickInputs) : TickOutput :=
  let idline : TextEntry := ⟨b.identifier, 35, 0⟩
  let b1 := { b with screen := [idline] }
  tickRx b1 inp [DispCall.clear, DispCall.drawText idline] inp.rx

/-- Iterate `tick` over a list of per-iteration inputs, stopping (as the
Python loop does) at the first iteration out of which an exception
propagates. Returns the final bonnet state and the outputs of the
iterations that ran. -/
def runTicks (b : BonnetState) : List TickInputs → BonnetState × List TickOutput
  | [] => (b, [])
  | i :: is =>
    let o := tick b i
    match o.error with
    | some _ => (o.state, [o])
    | none =>
      let r := runTicks o.state is
      (r.1, o :: r.2)

/-- All payloads successfully handed to `rfm9x.send` over a run. -/
def runSent (b : BonnetState) (l : List TickInputs) : List (List Nat) :=
  ((runTicks b l).2.map TickOutput.sent).foldr (fun s acc => s ++ acc) []

/-- Whether the receive result is a packet. -/
def isPacket : RxResult → Bool
  | RxResult.packet _ _ => true
  | _ => false

/-- Whether some raw button value reads pressed (active-low) this tick. -/
def anyPressed (inp : TickInputs) : Bool :=
  !inp.button_a_value || !inp.button_b_value || !inp.button_c_value

/-- Whether the receive-and-render phase of the iteration completes without
an exception: the receive call did not raise, and any packet decodes. -/
def rxPhaseOk : RxResult → Bool
  | RxResult.failure => false
  | RxResult.nothing => true
  | RxResult.packet data _ => (utf8Decode data).isSome

/-- Number of `display.fill(0)` calls in a display trace. -/
def numClears : List DispCall → Nat
  | [] => 0
  | DispCall.clear :: r => numClears r + 1
  | _ :: r => numClears r

/-- Number of `display.show()` calls in a display trace. -/
def numFlushes : List DispCall → Nat
  | [] => 0
  | DispCall.flush :: r => numFlushes r + 1
  | _ :: r => numFlushes r

/-- First call of a display trace, if any. -/
def headCall : List DispCall → Option DispCall
  | [] => none
  | c :: _ => some c

/-- Last call of a display trace, if any. -/
def lastCall : List DispCall → Option DispCall
  | [] => none
  | [c] => some c
  | _ :: c :: r => lastCall (c :: r)

/-- Whether a trace consists of `drawText` calls only. -/
def onlyDrawTexts : List DispCall → Bool
  | [] => true
  | DispCall.drawText _ :: r => onlyDrawTexts r
  | _ :: _ => false

/-- The display contract stated by the specification, following its words:
the tick's display trace is exactly one `clear`, then zero or more
`drawText`, then exactly one `flush`, in that order — never a `flush`
before a `drawText` of the same tick, never two flushes or two clears. -/
def specDisplayDiscipline (l : List DispCall) : Bool :=
  match l with
  | DispCall.clear :: rest =>
    match lastCall rest with
    | some DispCall.flush => onlyDrawTexts rest.dropLast
    | _ => false
  | _ => false

/-- Whether a frame contains a given text drawn as a single entry. -/
def frameHasLine (f : List TextEntry) (s : String) : Bool :=
  f.any fun e => e.s == s

/-- Whether a frame contains the device-identity line, i.e. the entry
drawn by line 136: the identifier string at position `(35, 0)`. -/
def frameHasIdentityLine (f : List TextEntry) (id : String) : Bool :=
  f.any fun e => decide (e.x = 35) && decide (e.y = 0) && decide (e.s = id)

/-- Whether a display trace draws a given text. -/
def drawsText (l : List DispCall) (s : String) : Bool :=
  l.any fun c =>
    match c with
    | DispCall.drawText e => e.s == s
    | _ => false

/-- The guard at the top of `run` (lines 131-132) reads
`if not LoraBonnet:` — it tests the truthiness of the class object
`LoraBonnet` itself, not of the `bonnet` argument. A Python class object
is always truthy, so the tested condition is the constant `true`. -/
def loraBonnetClassTruthy : Bool := true

/-- Whether the initialization guard of `run` raises
`ValueError("LoraBonnet was not properly initialized")` for a given
argument (`none` models passing `None`). The argument is unused, exactly
as in the source: the condition never reads the parameter. -/
def runInitGuardRaises (bonnet_arg : Option BonnetState) : Bool :=
  !loraBonnetClassTruthy

/-- The bonnet state right after `setup`: identifier from the host name,
`prev_packet` still `None`, display cleared. -/
def b0 : BonnetState := ⟨"node-1", none, []⟩

/-- UTF-8 bytes of `"hello"`. -/
def helloBytes : List Nat := utf8Encode "hello"

/-- An iteration with no packet, all buttons released, send healthy. -/
def idleNoButtons : TickInputs := ⟨RxResult.nothing, true, true, true, false⟩

/-- An iteration receiving packet `b"hello"` with quality `-42`. -/
def helloInput : TickInputs := ⟨RxResult.packet helloBytes (-42), true, true, true, false⟩

/-- An iteration on which `rfm9x.receive()` raises. -/
def rxFailInput : TickInputs := ⟨RxResult.failure, true, true, true, false⟩

/-- An iteration receiving the non-UTF-8 packet `b"\xff"`. -/
def badUtf8Input : TickInputs := ⟨RxResult.packet [255] (-10), true, true, true, false⟩

/-- An iteration with button A pressed (raw value low), no packet. -/
def pressAInput : TickInputs := ⟨RxResult.nothing, false, true, true, false⟩

/-- An iteration with buttons A and C both pressed, no packet. -/
def pressACInput : TickInputs := ⟨RxResult.nothing, false, true, false, false⟩

/-- An iteration with buttons B and C both pressed (A released), no packet. -/
def pressBCInput : TickInputs := ⟨RxResult.nothing, true, false, false, false⟩

/-- An iteration with button A pressed on which `rfm9x.send` raises. -/
def sendFailAInput : TickInputs := ⟨RxResult.nothing, false, true, true, true⟩

/-- Raw button-A signal `[released, pressed, pressed, released]` across
four consecutive iterations, transceiver quiet and healthy throughout. -/
def c1Inputs : List TickInputs := [idleNoButtons, pressAInput, pressAInput, idleNoButtons]

/-- `str(button_a_data, "utf-8")` recovers the literal (line 165). -/
theorem utf8Decode_button_a_data : utf8Decode button_a_data = some "Button A!\r\n" := by
  decide

/-- C9: the initialization guard of `run` tests the truthiness of the class
object `LoraBonnet`, which is always truthy, so for every argument value —
including `None` — `run` never raises
`ValueError("LoraBonnet was not properly initialized")`: that branch is
unreachable. -/
theorem c9_init_guard_unreachable (bonnet_arg : Option BonnetState) :
    runInitGuardRaises bonnet_arg = false := rfl

/-- C10: the loop body never mutates `identifier`, and it mutates
`prev_packet` only on iterations in which `receive()` returned a packet —
in particular both fields are unchanged on every iteration in which the
transceiver returns no packet. -/
theorem c10_state_mutation (b : BonnetState) (rx : RxResult) (av bv cv sf : Bool) :
    (tick b ⟨rx, av, bv, cv, sf⟩).state.identifier = b.identifier ∧
    (isPacket rx = false →
      (tick b ⟨rx, av, bv, cv, sf⟩).state.prev_packet = b.prev_packet) := by
  cases rx with
  | failure => exact ⟨rfl, fun _ => rfl⟩
  | nothing =>
    cases av <;> cases bv <;> cases cv <;> cases sf <;> exact ⟨rfl, fun _ => rfl⟩
  | packet d r =>
    refine ⟨?_, fun h => by simp [isPacket] at h⟩
    cases hd : utf8Decode d with
    | none => simp [tick, tickRx, tickPacket, hd]
    | some t =>
      cases av <;> cases bv <;> cases cv <;> cases sf <;>
        simp [tick, tickRx, tickPacket, hd, finishButtons, sendButton, finish]

/-- Concrete instantiation of `c10_state_mutation`: an idle iteration from
the post-`setup` state leaves `identifier` and `prev_packet` unchanged. -/
theorem c10_state_mutation_w :
    (tick b0 ⟨RxResult.nothing, true, true, true, false⟩).state.identifier = b0.identifier ∧
    (tick b0 ⟨RxResult.nothing, true, true, true, false⟩).state.prev_packet = b0.prev_packet :=
  ⟨(c10_state_mutation b0 RxResult.nothing true true true false).1,
   (c10_state_mutation b0 RxResult.nothing true true true false).2 rfl⟩

/-- C1 fails on the code: across the raw button-A signal sequence
[released, pressed, pressed, released] (quiet, healthy transceiver), the
loop calls `rfm9x.send` twice — once per iteration whose raw read is
pressed — not exactly once. -/
theorem c1_edge_triggered_false :
    ((runSent b0 c1Inputs).length == 1) = false ∧
    runSent b0 c1Inputs = [button_a_data, button_a_data] :=
  ⟨by decide, by decide⟩

/-- C1 amended: button sends are level-triggered, not edge-triggered — on
every iteration whose receive returns `None`, whose send does not fail and
whose raw button-A signal reads pressed, exactly one button-A payload is
sent, regardless of any previous iteration's button state; so the sequence
[released, pressed, pressed, released] produces one send per pressed
iteration (two in total), not one. -/
theorem c1_button_send_level_triggered (b : BonnetState) (rx : RxResult)
    (av bv cv sf : Bool) (hrx : rx = RxResult.nothing) (ha : av = false)
    (hs : sf = false) :
    (tick b ⟨rx, av, bv, cv, sf⟩).sent = [button_a_data] ∧
    (tick b ⟨rx, av, bv, cv, sf⟩).error = none := by
  subst hrx ha hs
  exact ⟨rfl, rfl⟩

/-- Concrete instantiation of `c1_button_send_level_triggered` at a
pressed-A iteration from the post-`setup` state. -/
theorem c1_button_send_level_triggered_w :
    (tick b0 pressAInput).sent = [button_a_data] ∧
    (tick b0 pressAInput).error = none :=
  c1_button_send_level_triggered b0 RxResult.nothing false true true false rfl rfl rfl

/-- C2: each button payload is the ASCII bytes of its label plus CRLF; at
most one outbound message is sent per iteration, each sent payload is one
of the three fixed button payloads, and the choice follows the priority
order A then B then C on every iteration whose receive phase is healthy
and whose send succeeds: if A reads pressed (whatever B and C read) the
button-A payload is sent, if A reads released and B pressed (whatever C
reads) the button-B payload is sent, and if A and B read released and C
pressed the button-C payload is sent. -/
theorem c2_at_most_one_send_priority_a (b : BonnetState) (rx : RxResult)
    (av bv cv sf : Bool) :
    button_a_data = "Button A!\r\n".data.map Char.toNat ∧
    button_b_data = "Button B!\r\n".data.map Char.toNat ∧
    button_c_data = "Button C!\r\n".data.map Char.toNat ∧
    (tick b ⟨rx, av, bv, cv, sf⟩).sent.length ≤ 1 ∧
    (∀ m ∈ (tick b ⟨rx, av, bv, cv, sf⟩).sent,
        m = button_a_data ∨ m = button_b_data ∨ m = button_c_data) ∧
    (av = false → sf = false → rxPhaseOk rx = true →
      (tick b ⟨rx, av, bv, cv, sf⟩).sent = [button_a_data]) ∧
    (av = true → bv = false → sf = false → rxPhaseOk rx = true →
      (tick b ⟨rx, av, bv, cv, sf⟩).sent = [button_b_data]) ∧
    (av = true → bv = true → cv = false → sf = false → rxPhaseOk rx = true →
      (tick b ⟨rx, av, bv, cv, sf⟩).sent = [button_c_data]) := by
  refine ⟨by decide, by decide, by decide, ?_, ?_, ?_, ?_, ?_⟩
  · cases rx with
    | failure => exact Nat.zero_le 1
    | nothing =>
      cases av <;> cases bv <;> cases cv <;> cases sf <;>
        first | exact Nat.zero_le 1 | exact Nat.le_refl 1
    | packet d r =>
      cases hd : utf8Decode d with
      | none =>
        simp only [tick, tickRx, hd]
        exact Nat.zero_le 1
      | some t =>
        cases av <;> cases bv <;> cases cv <;> cases sf <;>
          (simp only [tick, tickRx, hd]
           first | exact Nat.zero_le 1 | exact Nat.le_refl 1)
  · cases rx with
    | failure =>
      intro m hm
      exact absurd hm (List.not_mem_nil m)
    | nothing =>
      cases av <;> cases bv <;> cases cv <;> cases sf <;>
        simp [tick, tickRx, finishButtons, sendButton, finish]
    | packet d r =>
      cases hd : utf8Decode d with
      | none =>
        simp only [tick, tickRx, hd]
        intro m hm
        exact absurd hm (List.not_mem_nil m)
      | some t =>
        cases av <;> cases bv <;> cases cv <;> cases sf <;>
          simp [tick, tickRx, tickPacket, hd, finishButtons, sendButton, finish]
  · intro ha hs hok
    subst ha hs
    cases rx with
    | failure => exact absurd hok (by decide)
    | nothing => rfl
    | packet d r =>
      cases hd : utf8Decode d with
      | none => simp [rxPhaseOk, hd] at hok
      | some t =>
        simp only [tick, tickRx, hd]
        rfl
  · intro ha hb hs hok
    subst ha hb hs
    cases rx with
    | failure => exact absurd hok (by decide)
    | nothing => rfl
    | packet d r =>
      cases hd : utf8Decode d with
      | none => simp [rxPhaseOk, hd] at hok
      | some t =>
        simp only [tick, tickRx, hd]
        rfl
  · intro ha hb hc hs hok
    subst ha hb hc hs
    cases rx with
    | failure => exact absurd hok (by decide)
    | nothing => rfl
    | packet d r =>
      cases hd : utf8Decode d with
      | none => simp [rxPhaseOk, hd] at hok
      | some t =>
        simp only [tick, tickRx, hd]
        rfl

/-- Concrete instantiation of `c2_at_most_one_send_priority_a`: with A and
C both pressed on the same iteration the payload sent is button A's, and
with B and C both pressed (A released) it is button B's. -/
theorem c2_at_most_one_send_priority_a_w :
    (tick b0 pressACInput).sent = [button_a_data] ∧
    (tick b0 pressBCInput).sent = [button_b_data] :=
  ⟨(c2_at_most_one_send_priority_a b0 RxResult.nothing false true false
      false).2.2.2.2.2.1 rfl rfl rfl,
   (c2_at_most_one_send_priority_a b0 RxResult.nothing true false false
      false).2.2.2.2.2.2.1 rfl rfl rfl rfl⟩

/-- C3 fails on the code: already on an idle iteration the display trace is
`clear, drawText, flush, drawText, flush` (lines 135, 136, 142, 143, 187)
— a flush precedes a drawText of the same iteration, and two flushes
occur. -/
theorem c3_strict_discipline_false :
    specDisplayDiscipline (tick b0 idleNoButtons).calls = false ∧
    numFlushes (tick b0 idleNoButtons).calls = 2 :=
  ⟨by decide, by decide⟩

/-- C3 amended: on every iteration that completes without an exception the
display trace starts with a `clear` and ends with a `flush`, but the
strict once-each discipline fails: the trace contains two flushes when no
packet arrived (the extra one coming mid-iteration, before the waiting
line is drawn) and one flush when a packet arrived, and it contains one
`clear` plus one more for a received packet and one more for a button
send. -/
theorem c3_display_trace_shape (b : BonnetState) (rx : RxResult)
    (av bv cv sf : Bool) (h : (tick b ⟨rx, av, bv, cv, sf⟩).error = none) :
    headCall (tick b ⟨rx, av, bv, cv, sf⟩).calls = some DispCall.clear ∧
    lastCall (tick b ⟨rx, av, bv, cv, sf⟩).calls = some DispCall.flush ∧
    numFlushes (tick b ⟨rx, av, bv, cv, sf⟩).calls = (if isPacket rx then 1 else 2) ∧
    numClears (tick b ⟨rx, av, bv, cv, sf⟩).calls =
      1 + (if isPacket rx then 1 else 0) + (if av && bv && cv then 0 else 1) := by
  cases rx with
  | failure => exact Option.noConfusion h
  | nothing =>
    cases av <;> cases bv <;> cases cv <;> cases sf <;>
      first
        | exact Option.noConfusion h
        | exact ⟨rfl, rfl, rfl, rfl⟩
  | packet d r =>
    cases hd : utf8Decode d with
    | none =>
      simp only [tick, tickRx, hd] at h
      exact Option.noConfusion h
    | some t =>
      cases av <;> cases bv <;> cases cv <;> cases sf <;>
        (simp only [tick, tickRx, hd] at h ⊢
         first
           | exact Option.noConfusion h
           | exact ⟨rfl, rfl, rfl, rfl⟩)

/-- Concrete instantiation of `c3_display_trace_shape` at the `b"hello"`
packet iteration: trace starts with clear, ends with flush, one flush, two
clears. -/
theorem c3_display_trace_shape_w :
    headCall (tick b0 helloInput).calls = some DispCall.clear ∧
    lastCall (tick b0 helloInput).calls = some DispCall.flush ∧
    numFlushes (tick b0 helloInput).calls = 1 ∧
    numClears (tick b0 helloInput).calls = 2 :=
  c3_display_trace_shape b0 (RxResult.packet helloBytes (-42)) true true true false
    (by decide)

/-- C4 fails on the code: an iteration on which `rfm9x.receive()` raises
terminates the loop with no warning logged, no flush and no sleep, and an
iteration on which `rfm9x.send` raises for a pressed button terminates the
loop right after a `display.fill(0)`, before the frame flush and the
sleep. -/
theorem c4_nonfatal_false :
    decide ((tick b0 rxFailInput).error = none) = false ∧
    (tick b0 rxFailInput).logs = [] ∧
    (tick b0 rxFailInput).sleeps_ms = [] ∧
    numFlushes (tick b0 rxFailInput).calls = 0 ∧
    decide ((tick b0 sendFailAInput).error = none) = false ∧
    (tick b0 sendFailAInput).sleeps_ms = [] ∧
    lastCall (tick b0 sendFailAInput).calls = some DispCall.clear := by
  decide

/-- C4 amended: transceiver failures are fatal, not recovered — if the
receive call raises, the iteration aborts with nothing logged, no flush
and no sleep (the last display call is the identity line), and if the send
call raises while some button reads pressed on an iteration whose receive
phase was healthy, the iteration aborts right after the button branch's
`display.fill(0)`, before the frame flush and the 100 ms sleep; in both
cases the exception propagates out of `run` and the loop terminates. -/
theorem c4_transceiver_failure_fatal (b : BonnetState) (rx : RxResult)
    (av bv cv sf : Bool) :
    (rx = RxResult.failure →
      (tick b ⟨rx, av, bv, cv, sf⟩).error = some RunError.receiveError ∧
      (tick b ⟨rx, av, bv, cv, sf⟩).logs = [] ∧
      (tick b ⟨rx, av, bv, cv, sf⟩).sleeps_ms = [] ∧
      lastCall (tick b ⟨rx, av, bv, cv, sf⟩).calls
        = some (DispCall.drawText ⟨b.identifier, 35, 0⟩)) ∧
    (sf = true → (av && bv && cv) = false → rxPhaseOk rx = true →
      (tick b ⟨rx, av, bv, cv, sf⟩).error = some RunError.sendError ∧
      (tick b ⟨rx, av, bv, cv, sf⟩).sleeps_ms = (if isPacket rx then [1000] else []) ∧
      lastCall (tick b ⟨rx, av, bv, cv, sf⟩).calls = some DispCall.clear) := by
  constructor
  · intro hrx
    subst hrx
    exact ⟨rfl, rfl, rfl, rfl⟩
  · intro hsf hbtn hok
    subst hsf
    cases rx with
    | failure => exact absurd hok (by decide)
    | nothing =>
      cases av <;> cases bv <;> cases cv <;>
        first
          | exact absurd hbtn (by decide)
          | exact ⟨rfl, rfl, rfl⟩
    | packet d r =>
      cases hd : utf8Decode d with
      | none => simp [rxPhaseOk, hd] at hok
      | some t =>
        cases av <;> cases bv <;> cases cv <;>
          first
            | exact absurd hbtn (by decide)
            | (simp only [tick, tickRx, hd]
               exact ⟨rfl, rfl, rfl⟩)

/-- Concrete instantiation of `c4_transceiver_failure_fatal`: a send
failure with button A pressed aborts the iteration with no sleep, last
display call a clear. -/
theorem c4_transceiver_failure_fatal_w :
    (tick b0 sendFailAInput).error = some RunError.sendError ∧
    (tick b0 sendFailAInput).sleeps_ms = [] ∧
    lastCall (tick b0 sendFailAInput).calls = some DispCall.clear :=
  (c4_transceiver_failure_fatal b0 RxResult.nothing false true true true).2 rfl rfl rfl

/-- C5 fails on the code: the non-UTF-8 packet `b"\xff"` makes
`str(packet, "utf-8")` raise; nothing is logged, no placeholder line is
drawn, and the loop terminates. -/
theorem c5_placeholder_false :
    decide ((tick b0 badUtf8Input).error = none) = false ∧
    drawsText (tick b0 badUtf8Input).calls "<undecodable>" = false ∧
    (tick b0 badUtf8Input).logs = [] := by
  decide

/-- C5 amended: a packet whose bytes are not valid UTF-8 is fatal — after
`prev_packet` has already been overwritten with the raw bytes, the decode
raises `UnicodeDecodeError` and the exception propagates out of `run`: the
iteration's display trace is just the initial clear, the identity line and
the packet branch's clear (in particular, no placeholder line is drawn),
nothing is logged, nothing is sent and no sleep occurs. -/
theorem c5_bad_utf8_fatal (b : BonnetState) (data : List Nat) (rssi : Int)
    (av bv cv sf : Bool) (hd : utf8Decode data = none) :
    (tick b ⟨RxResult.packet data rssi, av, bv, cv, sf⟩).error
      = some RunError.decodeError ∧
    (tick b ⟨RxResult.packet data rssi, av, bv, cv, sf⟩).state.prev_packet
      = some data ∧
    (tick b ⟨RxResult.packet data rssi, av, bv, cv, sf⟩).calls
      = [DispCall.clear, DispCall.drawText ⟨b.identifier, 35, 0⟩, DispCall.clear] ∧
    (tick b ⟨RxResult.packet data rssi, av, bv, cv, sf⟩).logs = [] ∧
    (tick b ⟨RxResult.packet data rssi, av, bv, cv, sf⟩).sent = [] ∧
    (tick b ⟨RxResult.packet data rssi, av, bv, cv, sf⟩).sleeps_ms = [] := by
  simp only [tick, tickRx, hd]
  exact ⟨rfl, rfl, rfl, rfl, rfl, rfl⟩

/-- Concrete instantiation of `c5_bad_utf8_fatal` at the packet `b"\xff"`
from the post-`setup` state. -/
theorem c5_bad_utf8_fatal_w :
    (tick b0 badUtf8Input).error = some RunError.decodeError ∧
    (tick b0 badUtf8Input).state.prev_packet = some [255] ∧
    (tick b0 badUtf8Input).calls
      = [DispCall.clear, DispCall.drawText ⟨"node-1", 35, 0⟩, DispCall.clear] ∧
    (tick b0 badUtf8Input).logs = [] ∧
    (tick b0 badUtf8Input).sent = [] ∧
    (tick b0 badUtf8Input).sleeps_ms = [] :=
  c5_bad_utf8_fatal b0 [255] (-10) true true true false (by decide)

/-- C6 fails on the code: an iteration that received a packet sleeps twice
— `time.sleep(1)` after logging (line 155) and then the 100 ms end-of-tick
sleep — so the fixed inter-tick sleep is not the only scheduling delay. -/
theorem c6_single_sleep_false :
    ((tick b0 helloInput).sleeps_ms == [100]) = false ∧
    (tick b0 helloInput).sleeps_ms = [1000, 100] :=
  ⟨by decide, by decide⟩

/-- C6 amended: every iteration that completes without an exception ends
with the fixed 100 ms sleep, and on packet-less iterations that is the
only delay; but an iteration that received a (decodable) packet performs
an additional one-second sleep after logging, before the button scan. -/
theorem c6_sleep_schedule (b : BonnetState) (rx : RxResult) (av bv cv sf : Bool)
    (h : (tick b ⟨rx, av, bv, cv, sf⟩).error = none) :
    (tick b ⟨rx, av, bv, cv, sf⟩).sleeps_ms
      = (if isPacket rx then [1000, 100] else [100]) := by
  cases rx with
  | failure => exact Option.noConfusion h
  | nothing =>
    cases av <;> cases bv <;> cases cv <;> cases sf <;>
      first
        | exact Option.noConfusion h
        | rfl
  | packet d r =>
    cases hd : utf8Decode d with
    | none =>
      simp only [tick, tickRx, hd] at h
      exact Option.noConfusion h
    | some t =>
      cases av <;> cases bv <;> cases cv <;> cases sf <;>
        (simp only [tick, tickRx, hd] at h ⊢
         first
           | exact Option.noConfusion h
           | rfl)

/-- Concrete instantiation of `c6_sleep_schedule` at the `b"hello"` packet
iteration: it sleeps one second and then 100 ms. -/
theorem c6_sleep_schedule_w :
    (tick b0 helloInput).sleeps_ms = [1000, 100] :=
  c6_sleep_schedule b0 (RxResult.packet helloBytes (-42)) true true true false
    (by decide)

/-- C7 fails on the code: on the `b"hello"` packet iteration the only
flushed frame — the one shown at line 187 — does not contain the
device-identity line, because the packet branch's `display.fill(0)` at
line 146 erased it before the flush. -/
theorem c7_identity_always_false :
    frameHasIdentityLine ((tick b0 helloInput).frames.getLast?.getD []) "node-1"
      = false ∧
    (tick b0 helloInput).frames.length = 1 :=
  ⟨by decide, by decide⟩

/-- C7 amended: the identity line is drawn first on every iteration, and
on iterations with no packet and no pressed button every flushed frame
contains it; but on any iteration that received a packet or sent a button
message (completing without an exception), the frame flushed at the end of
the iteration does not contain the identity line — the packet and button
branches clear the display buffer after it was drawn. -/
theorem c7_identity_line_presence (b : BonnetState) (rx : RxResult)
    (av bv cv sf : Bool) (h : (tick b ⟨rx, av, bv, cv, sf⟩).error = none) :
    ((rx = RxResult.nothing ∧ (av && bv && cv) = true) →
      ∀ f ∈ (tick b ⟨rx, av, bv, cv, sf⟩).frames,
        frameHasIdentityLine f b.identifier = true) ∧
    ((isPacket rx || !(av && bv && cv)) = true →
      frameHasIdentityLine
        ((tick b ⟨rx, av, bv, cv, sf⟩).frames.getLast?.getD []) b.identifier
        = false) := by
  cases rx with
  | failure => exact Option.noConfusion h
  | nothing =>
    cases av <;> cases bv <;> cases cv <;> cases sf <;>
      refine ⟨?_, ?_⟩ <;>
        first
          | exact Option.noConfusion h
          | (rintro ⟨-, hb⟩
             exact absurd hb (by decide))
          | (intro hx
             exact absurd hx (by decide))
          | (intro hx
             rfl)
          | (rintro ⟨-, -⟩ f hf
             simp [tick, tickRx, finishButtons, finish] at hf
             rcases hf with rfl | rfl <;> simp [frameHasIdentityLine])
  | packet d r =>
    cases hd : utf8Decode d with
    | none =>
      simp only [tick, tickRx, hd] at h
      exact Option.noConfusion h
    | some t =>
      cases av <;> cases bv <;> cases cv <;> cases sf <;>
        (simp only [tick, tickRx, hd] at h ⊢
         refine ⟨?_, ?_⟩ <;>
           first
             | exact Option.noConfusion h
             | (rintro ⟨hrx, -⟩
                exact RxResult.noConfusion hrx)
             | (intro hx
                rfl))

/-- Concrete instantiation of `c7_identity_line_presence`: on the
`b"hello"` packet iteration the final flushed frame lacks the identity
line. -/
theorem c7_identity_line_presence_w :
    frameHasIdentityLine ((tick b0 helloInput).frames.getLast?.getD [])
      b0.identifier = false :=
  (c7_identity_line_presence b0 (RxResult.packet helloBytes (-42)) true true true
    false (by decide)).2 rfl

/-- C8 fails on the code: on the iteration receiving packet `b"hello"`
with quality `-42`, no flushed frame contains a single line `"RX: hello"`
— the text is drawn as the two separate entries `'RX: '` and `'hello'` —
and the only record emitted is the log line `"Received: hello"`, which
carries no quality value (the script never reads the radio's quality
metric). -/
theorem c8_rx_hello_line_false :
    ((tick b0 helloInput).frames.any fun f => frameHasLine f "RX: hello") = false ∧
    (tick b0 helloInput).logs = ["Received: hello"] :=
  ⟨by decide, by decide⟩

/-- C8 amended: an iteration receiving packet `b"hello"` with no button
pressed and a healthy send flushes exactly one frame, holding the two
entries `'RX: '` at (0, 0) and `'hello'` at (25, 0) — which compose
visually to `RX: hello` on the top display row — and emits exactly the log
record `"Received: hello"`; the whole iteration is independent of the
packet's quality value, which is never read or recorded. -/
theorem c8_hello_packet_rendering (b : BonnetState) (q1 q2 : Int) :
    tick b ⟨RxResult.packet helloBytes q1, true, true, true, false⟩
      = tick b ⟨RxResult.packet helloBytes q2, true, true, true, false⟩ ∧
    (tick b ⟨RxResult.packet helloBytes q1, true, true, true, false⟩).frames
      = [[⟨"RX: ", 0, 0⟩, ⟨"hello", 25, 0⟩]] ∧
    (tick b ⟨RxResult.packet helloBytes q1, true, true, true, false⟩).logs
      = ["Received: hello"] ∧
    (tick b ⟨RxResult.packet helloBytes q1, true, true, true, false⟩).sent = [] ∧
    (tick b ⟨RxResult.packet helloBytes q1, true, true, true, false⟩).error = none :=
  ⟨rfl, rfl, rfl, rfl, rfl⟩

end LoraRelay
